import Mathlib

/-!
Verification of the realtime-console session orchestrator.

The definitions below are a shallow embedding of the TypeScript sources:
  - `src/utils/on-tool.ts` (the `_onTool` dispatch guard),
  - `src/pages/ConsolePage.tsx` (session controller, event-log coalescing,
    tool handlers, push-to-talk / turn-detection logic),
  - `proxy-server/proxy.ts` (the `/proxy` and `/scrape` endpoints and the
    redux memory slice reducers).

JavaScript runtime behaviour needed by the claims (truthiness, nullish
coalescing, property access throwing on `undefined`/`null`, promises that
are not awaited) is modelled explicitly on a small `JSValue` type.
Asynchronous network collaborators (fetch, the OpenAI image client, the
scrape proxy) are passed in as `Except`-valued parameters: `.ok` is a
resolved value, `.error m` is a rejected operation whose error message
is `m`.
-/

namespace RealtimeConsole

/-- A JavaScript runtime value.  `promise v` is a pending promise that
would resolve to `v`; it matters because `startRecording` reads a
property off an un-awaited promise. -/
inductive JSValue where
  | undefined : JSValue
  | null : JSValue
  | bool : Bool → JSValue
  | num : Int → JSValue
  | str : String → JSValue
  | arr : List JSValue → JSValue
  | obj : List (String × JSValue) → JSValue
  | promise : JSValue → JSValue

/-- JavaScript truthiness: `undefined`, `null`, `false`, `0` and `""` are
falsy; every object (including arrays and promises) is truthy. -/
def truthy : JSValue → Bool
  | .undefined => false
  | .null => false
  | .bool b => b
  | .num n => n != 0
  | .str s => s != ""
  | .arr _ => true
  | .obj _ => true
  | .promise _ => true

/-- Nullish (`undefined` or `null`): the values caught by `??` and `?.`. -/
def nullish : JSValue → Bool
  | .undefined => true
  | .null => true
  | _ => false

/-- Property access `v.k`.  Throws a `TypeError` on `undefined`/`null`;
on an object looks the key up (missing keys read as `undefined`); on any
other primitive (or a pending promise) an unknown property reads as
`undefined`. -/
def getProp : JSValue → String → Except String JSValue
  | .undefined, k => .error ("TypeError: Cannot read properties of undefined (reading " ++ k ++ ")")
  | .null, k => .error ("TypeError: Cannot read properties of null (reading " ++ k ++ ")")
  | .obj fields, k => .ok ((fields.lookup k).getD .undefined)
  | _, _ => .ok .undefined

/-- Optional-chaining access `v?.k`: short-circuits to `undefined` when
`v` is nullish, otherwise behaves like plain access. -/
def getPropOpt (v : JSValue) (k : String) : Except String JSValue :=
  if nullish v then .ok .undefined else getProp v k

/-- Index access `v[i]` (used by `response.data[0]`). -/
def jsIndex : JSValue → Nat → Except String JSValue
  | .undefined, i => .error ("TypeError: Cannot read properties of undefined (reading " ++ toString i ++ ")")
  | .null, i => .error ("TypeError: Cannot read properties of null (reading " ++ toString i ++ ")")
  | .arr xs, i => .ok ((xs.get? i).getD .undefined)
  | .obj fields, i => .ok ((fields.lookup (toString i)).getD .undefined)
  | _, _ => .ok .undefined

/-- Calling an array method (`forEach`, `filter`, `map`) on a value:
succeeds with the element list on an array, throws a `TypeError`
otherwise. -/
def asArray (v : JSValue) (method : String) : Except String (List JSValue) :=
  match v with
  | .arr xs => .ok xs
  | _ => .error ("TypeError: " ++ method ++ " is not a function")

/-- String interpolation `${v}` of a JavaScript value. -/
def jsToString : JSValue → String
  | .undefined => "undefined"
  | .null => "null"
  | .bool b => if b then "true" else "false"
  | .num n => toString n
  | .str s => s
  | .arr _ => ""
  | .obj _ => "[object Object]"
  | .promise _ => "[object Promise]"

/-- `Array.prototype.filter` with a predicate that may throw. -/
def filterE (p : JSValue → Except String Bool) : List JSValue → Except String (List JSValue)
  | [] => .ok []
  | x :: xs => do
    let keep ← p x
    let rest ← filterE p xs
    if keep then return x :: rest else return rest

/-- `Array.prototype.map` with a function that may throw. -/
def mapE (f : JSValue → Except String JSValue) : List JSValue → Except String (List JSValue)
  | [] => .ok []
  | x :: xs => do
    let y ← f x
    let ys ← mapE f xs
    return y :: ys

/-! ## `_onTool` — the dispatch guard (`src/utils/on-tool.ts`)

```ts
export async function _onTool(args: unknown, handler: any) {
  try {
    return (await handler(args)) ?? { success: true };
  } catch (error: any) {
    return { error: error.message };
  }
}
```
The handler is a possibly-throwing computation `JSValue → Except String JSValue`
(`.error m` is a thrown/rejected error whose `.message` is `m`). -/
def _onTool (args : JSValue) (handler : JSValue → Except String JSValue) : JSValue :=
  match handler args with
  | .ok v => if nullish v then .obj [("success", .bool true)] else v
  | .error m => .obj [("error", .str m)]

/-! ## MemoryStore (`proxy-server/proxy.ts`, redux `memorySlice`)

A JavaScript object `Record<string, string>`: an insertion-ordered list of
key/value pairs without duplicate keys.  Assigning to an existing key
updates it in place; assigning a fresh key appends; `delete` removes the
binding. -/

/-- The memory mapping: insertion-ordered string-keyed bindings. -/
abbrev Memory := List (String × String)

/-- Reducer `updateMemory`: `state.memory[key] = value`. -/
def updateMemory (m : Memory) (key value : String) : Memory :=
  if (m.map Prod.fst).contains key then
    m.map (fun kv => if kv.1 = key then (key, value) else kv)
  else
    m ++ [(key, value)]

/-- Reducer `removeMemory`: `delete state.memory[key]`. -/
def removeMemory (m : Memory) (key : String) : Memory :=
  m.filter (fun kv => kv.1 ≠ key)

/-- Key lookup in the memory mapping. -/
def memLookup (m : Memory) (key : String) : Option String :=
  (m : List (String × String)).lookup key

/-! ## Claim theorems (first group) -/

/-- C1: for every tool handler wrapped by `_onTool` and every argument
value, dispatch yields exactly one structured result and never throws
(the embedding is a total function into `JSValue`): a thrown/rejected
handler becomes `{error: message}`, a handler resolving to a nullish
value (no explicit return) is normalized to `{success: true}`, and any
other resolved value is returned unchanged. -/
theorem onTool_total_dispatch :
    ∀ (handler : JSValue → Except String JSValue) (args : JSValue),
      (∀ m, handler args = .error m → _onTool args handler = .obj [("error", .str m)]) ∧
      (∀ v, handler args = .ok v → nullish v = true →
        _onTool args handler = .obj [("success", .bool true)]) ∧
      (∀ v, handler args = .ok v → nullish v = false → _onTool args handler = v) := by
  intro handler args
  refine ⟨?_, ?_, ?_⟩
  · intro m hm
    simp [_onTool, hm]
  · intro v hv hn
    simp [_onTool, hv, hn]
  · intro v hv hn
    simp [_onTool, hv, hn]

/-- Witness for C1 at concrete handlers: a data-returning handler, a
handler with no explicit return value, and a throwing handler. -/
theorem onTool_total_dispatch_witness :
    _onTool (.obj []) (fun _ => .ok (.str "data")) = .str "data" ∧
    _onTool (.obj []) (fun _ => .ok .undefined) = .obj [("success", .bool true)] ∧
    _onTool (.obj []) (fun _ => .error "boom") = .obj [("error", .str "boom")] := by
  refine ⟨?_, ?_, ?_⟩
  · exact (onTool_total_dispatch (fun _ => .ok (.str "data")) (.obj [])).2.2 (.str "data") rfl rfl
  · exact (onTool_total_dispatch (fun _ => .ok .undefined) (.obj [])).2.1 .undefined rfl rfl
  · exact (onTool_total_dispatch (fun _ => .error "boom") (.obj [])).1 "boom" rfl

/-- An absent key is the key of no binding in the store. -/
theorem memLookup_none_keys :
    ∀ (m : Memory) (k : String), memLookup m k = none → ∀ kv ∈ m, kv.1 ≠ k := by
  intro m
  induction m with
  | nil => intro k _ kv hkv; cases hkv
  | cons p rest ih =>
    intro k h kv hkv
    rw [memLookup, List.lookup] at h
    cases hk : k == p.1 with
    | true => rw [hk] at h; simp at h
    | false =>
      rw [hk] at h
      cases hkv with
      | head =>
        intro heq
        rw [heq] at hk
        simp at hk
      | tail _ htail => exact ih k h kv htail

/-- C9: `set_memory(key="name", value="Alex")` followed by
`remove_memory(key="name")` leaves an initially empty MemoryStore empty;
in general, when `k` is absent from the store, removing `k` right after
setting it restores the store exactly. -/
theorem memory_set_then_remove :
    removeMemory (updateMemory [] "name" "Alex") "name" = ([] : Memory) ∧
    ∀ (m : Memory) (k v : String), memLookup m k = none →
      removeMemory (updateMemory m k v) k = m := by
  constructor
  · rfl
  · intro m k v habs
    have hknotin : ∀ kv ∈ m, kv.1 ≠ k := memLookup_none_keys m k habs
    have hnotmem : k ∉ (m : List (String × String)).map Prod.fst := by
      intro hmem
      rcases List.mem_map.mp hmem with ⟨p, hp, hpk⟩
      exact hknotin p hp hpk
    have hcontains : (((m : List (String × String)).map Prod.fst).contains k) = false := by
      simpa using hnotmem
    unfold updateMemory removeMemory
    rw [hcontains]
    simp only [Bool.false_eq_true, if_false, List.filter_append]
    have h1 : (m : List (String × String)).filter (fun kv => kv.1 ≠ k) = m :=
      List.filter_eq_self.mpr (by
        intro a ha
        simpa using hknotin a ha)
    have h2 : ([(k, v)] : List (String × String)).filter (fun kv => kv.1 ≠ k) = [] := by
      simp
    rw [h1, h2, List.append_nil]

/-- Witness for C9 at a non-empty store: the key `"city"` is absent, and
set-then-remove of `"city"` restores the store. -/
theorem memory_set_then_remove_witness :
    removeMemory (updateMemory [("name", "Alex")] "city" "Berlin") "city"
      = ([("name", "Alex")] : Memory) :=
  memory_set_then_remove.2 [("name", "Alex")] "city" "Berlin" rfl

/-! ## Event-log coalescing (`ConsolePage.tsx`, `client.on('realtime.event')`)

```ts
setRealtimeEvents((realtimeEvents) => {
  const lastEvent = realtimeEvents[realtimeEvents.length - 1];
  if (lastEvent?.event.type === realtimeEvent.event.type) {
    lastEvent.count = (lastEvent.count || 0) + 1;
    return realtimeEvents.slice(0, -1).concat(lastEvent);
  } else {
    return realtimeEvents.concat(realtimeEvent);
  }
});
```
Only the event type and the repeat counter matter to the claim, so a log
entry is the pair of its event type and its optional counter. -/

/-- One entry of the realtime event log: the event type of its first
event and the repeat counter (absent on a fresh entry). -/
structure LogEntry where
  type : String
  count : Option Nat
deriving DecidableEq, Repr

/-- Processing one inbound event of type `t` against the current log. -/
def logStep (log : List LogEntry) (t : String) : List LogEntry :=
  match log.getLast? with
  | some lastEvent =>
    if lastEvent.type = t then
      log.dropLast ++ [{ lastEvent with count := some (lastEvent.count.getD 0 + 1) }]
    else
      log ++ [⟨t, none⟩]
  | none => log ++ [⟨t, none⟩]

/-- Processing a sequence of inbound event types in arrival order. -/
def logEvents (log : List LogEntry) (ts : List String) : List LogEntry :=
  ts.foldl logStep log

/-- The event type of the last log entry, if any. -/
def lastEntryType (log : List LogEntry) : Option String :=
  log.getLast?.map LogEntry.type

/-- A repeated event mutates the last entry in place: its counter is
bumped by one (from an unset counter the bump yields `1`). -/
theorem logStep_append_same (log : List LogEntry) (t : String) (c : Option Nat) :
    logStep (log ++ [⟨t, c⟩]) t = log ++ [⟨t, some (c.getD 0 + 1)⟩] := by
  unfold logStep
  rw [List.getLast?_concat]
  simp [List.dropLast_concat]

/-- Extending a run: feeding `m` further events of the type of the last
entry keeps every earlier entry untouched and adds `m` to the counter. -/
theorem logEvents_replicate_same (m : Nat) :
    ∀ (log : List LogEntry) (t : String) (c : Option Nat),
      logEvents (log ++ [⟨t, c⟩]) (List.replicate m t)
        = log ++ [⟨t, if m = 0 then c else some (c.getD 0 + m)⟩] := by
  induction m with
  | zero => intro log t c; simp [logEvents]
  | succ m ih =>
    intro log t c
    rw [List.replicate_succ]
    show logEvents (logStep (log ++ [⟨t, c⟩]) t) (List.replicate m t) = _
    rw [logStep_append_same, ih]
    cases m with
    | zero => simp
    | succ m' =>
      have harith : c.getD 0 + 1 + (m' + 1) = c.getD 0 + (m' + 1 + 1) := by omega
      simp [harith]

/-- A fresh event type (or an empty log) appends a new entry with the
counter unset, reordering nothing. -/
theorem logStep_new_type (log : List LogEntry) (t : String)
    (h : lastEntryType log ≠ some t) : logStep log t = log ++ [⟨t, none⟩] := by
  unfold logStep
  cases hl : log.getLast? with
  | none => rfl
  | some lastEvent =>
    have hne : lastEvent.type ≠ t := by
      intro heq
      apply h
      rw [lastEntryType, hl]
      simp [heq]
    simp [hne]

/-- C3 (amended): an event whose type differs from the last entry's type
appends a new entry with the counter unset; a run of `n ≥ 1` consecutive
events of one fresh type collapses into a single appended entry whose
counter is `n - 1` repeats (unset when `n = 1`), never touching or
reordering the earlier entries; and non-consecutive repeats never merge
(shown on the trace `a, b, a`). -/
theorem logEvents_run_coalescing :
    ∀ (log : List LogEntry) (t : String) (n : Nat),
      (lastEntryType log ≠ some t → logStep log t = log ++ [⟨t, none⟩]) ∧
      (lastEntryType log ≠ some t → 1 ≤ n →
        logEvents log (List.replicate n t)
          = log ++ [⟨t, if n = 1 then none else some (n - 1)⟩]) ∧
      logEvents [] ["a", "b", "a"] = [⟨"a", none⟩, ⟨"b", none⟩, ⟨"a", none⟩] := by
  intro log t n
  refine ⟨logStep_new_type log t, ?_, by rfl⟩
  intro hne hn
  cases n with
  | zero => omega
  | succ n' =>
    rw [List.replicate_succ]
    show logEvents (logStep log t) (List.replicate n' t) = _
    rw [logStep_new_type log t hne, logEvents_replicate_same]
    cases n' with
    | zero => simp
    | succ n'' => simp

/-- Witness for C3 (amended) on a concrete run: three consecutive
`response.audio.delta` events collapse into one entry counting two
repeats. -/
theorem logEvents_run_coalescing_witness :
    logEvents [] (List.replicate 3 "response.audio.delta")
      = [⟨"response.audio.delta", some 2⟩] :=
  (logEvents_run_coalescing [] "response.audio.delta" 3).2.1 (by simp [lastEntryType])
    (by omega)

/-- C3 counterexample: a run of two identical events produces the
counter `1` (repeat count), not `2` (run length) as the claim states. -/
theorem logEvents_run_length_counterexample :
    logEvents [] ["response.audio.delta", "response.audio.delta"]
      = [⟨"response.audio.delta", some 1⟩] ∧
    logEvents [] ["response.audio.delta", "response.audio.delta"]
      ≠ [⟨"response.audio.delta", some 2⟩] := by
  constructor
  · rfl
  · decide

/-! ## Session controller (`ConsolePage.tsx`)

The controller's observable behaviour is a list of actions issued to the
audio devices, the transport client and the React state setters, in
program order. -/

/-- An action issued by the session controller. -/
inductive RTAction where
  | setIsRecording (b : Bool)
  | interruptPlayback
  | cancelResponse (trackId : String) (offset : Int)
  | record
  | pauseRecording
  | updateTurnDetection (mode : Option String)
  | setCanPushToTalk (b : Bool)
  | clientDisconnect
  | recorderEnd
  | playerInterrupt
  | createResponse
deriving DecidableEq, Repr

/-- The track cut off by the player, when one was playing. -/
structure TrackOffset where
  trackId : String
  offset : Int
deriving DecidableEq, Repr

/-- The value `wavStreamPlayer.interrupt()` resolves to: the
`{trackId, offset}` object of the interrupted track, or `null` when
nothing was playing. -/
def interruptResult : Option TrackOffset → JSValue
  | some t => .obj [("trackId", .str t.trackId), ("offset", .num t.offset)]
  | none => .null

/-- `startRecording` (push-to-talk button down), `ConsolePage.tsx:296`:

```ts
setIsRecording(true);
const client = clientRef.current;
if (!client) return;
const trackSampleOffset = wavStreamPlayer.interrupt();   // NOT awaited
if (trackSampleOffset?.trackId) {
  const { trackId, offset } = trackSampleOffset;
  client.cancelResponse(trackId, offset);
}
await wavRecorder.record(...);
```
Because the call is not awaited, `trackSampleOffset` is the pending
promise, so the guard reads `trackId` off a promise object. -/
def startRecording (client : Bool) (playing : Option TrackOffset) : List RTAction :=
  [.setIsRecording true] ++
  (if !client then [] else
    let trackSampleOffset : JSValue := .promise (interruptResult playing)
    [.interruptPlayback] ++
    (match getPropOpt trackSampleOffset "trackId" with
     | .error _ => []
     | .ok tid =>
       if truthy tid then
         match getProp trackSampleOffset "trackId", getProp trackSampleOffset "offset" with
         | .ok t, .ok o =>
           [.cancelResponse (jsToString t) (match o with | .num n => n | _ => 0)]
         | _, _ => []
       else []) ++
    [.record])

/-- The `conversation.interrupted` handler, `ConsolePage.tsx:879` — the
same pattern with the `await` present:

```ts
const trackSampleOffset = await wavStreamPlayer.interrupt();
if (trackSampleOffset?.trackId) {
  const { trackId, offset } = trackSampleOffset;
  await client.cancelResponse(trackId, offset);
}
```
-/
def conversationInterrupted (playing : Option TrackOffset) : List RTAction :=
  let trackSampleOffset : JSValue := interruptResult playing
  [.interruptPlayback] ++
  (match getPropOpt trackSampleOffset "trackId" with
   | .error _ => []
   | .ok tid =>
     if truthy tid then
       match getProp trackSampleOffset "trackId", getProp trackSampleOffset "offset" with
       | .ok t, .ok o =>
         [.cancelResponse (jsToString t) (match o with | .num n => n | _ => 0)]
       | _, _ => []
     else [])

/-- C4 (code bug): in push-to-talk `startRecording` the interrupt result
is never awaited, so the `trackId` guard reads a property off a pending
promise and is always `undefined`: no cancellation is ever issued, even
when a track was playing — evaluated at the failing input of a track
`"track_1"` playing at sample offset `4800`.  The `conversation.interrupted`
handler in the same file awaits the identical call and does issue the
cancellation, showing the missing `await` is a slip. -/
theorem startRecording_never_cancels :
    (∀ playing : Option TrackOffset,
      startRecording true playing = [.setIsRecording true, .interruptPlayback, .record]) ∧
    startRecording true (some ⟨"track_1", 4800⟩)
      = [.setIsRecording true, .interruptPlayback, .record] ∧
    conversationInterrupted (some ⟨"track_1", 4800⟩)
      = [.interruptPlayback, .cancelResponse "track_1" 4800] := by
  refine ⟨?_, ?_, ?_⟩
  · intro playing
    cases playing <;> rfl
  · rfl
  · rfl

/-- `changeTurnEndType` (manual ↔ VAD toggle), `ConsolePage.tsx:337`:

```ts
const client = clientRef.current;
if (!client) return;
const wavRecorder = wavRecorderRef.current;
if (value === 'none' && wavRecorder.getStatus() === 'recording') {
  await wavRecorder.pause();
}
client.updateSession({
  turn_detection: value === 'none' ? null : { type: 'server_vad' },
});
if (value === 'server_vad' && client.isConnected()) {
  await wavRecorder.record(...);
}
setCanPushToTalk(value === 'none');
```
-/
def changeTurnEndType (client : Bool) (value : String) (recStatus : String)
    (connected : Bool) : List RTAction :=
  if !client then [] else
    (if value = "none" ∧ recStatus = "recording" then [.pauseRecording] else []) ++
    [.updateTurnDetection (if value = "none" then none else some "server_vad")] ++
    (if value = "server_vad" ∧ connected then [.record] else []) ++
    [.setCanPushToTalk (value = "none")]

/-- The recorder status after an action list runs, starting from
`init` (`"recording"` while frames are being captured). -/
def recorderStatusAfter (init : String) (as : List RTAction) : String :=
  as.foldl
    (fun st a =>
      match a with
      | .pauseRecording => "paused"
      | .record => "recording"
      | .recorderEnd => "ended"
      | _ => st)
    init

/-- C6: switching to `"none"` while the recorder is recording pauses the
recorder *before* the turn-detection update reaches the transport (the
action list is literally pause-then-update), and afterwards the recorder
is never left recording; switching to `"server_vad"` while connected
resumes continuous recording right after the update. -/
theorem changeTurnEndType_mode_switch :
    ∀ (recStatus : String) (connected : Bool),
      changeTurnEndType true "none" "recording" connected
        = [.pauseRecording, .updateTurnDetection none, .setCanPushToTalk true] ∧
      recorderStatusAfter recStatus (changeTurnEndType true "none" recStatus connected)
        = (if recStatus = "recording" then "paused" else recStatus) ∧
      changeTurnEndType true "server_vad" recStatus true
        = [.updateTurnDetection (some "server_vad"), .record, .setCanPushToTalk false] ∧
      recorderStatusAfter recStatus (changeTurnEndType true "server_vad" recStatus true)
        = "recording" := by
  intro recStatus connected
  refine ⟨by simp [changeTurnEndType], ?_, ?_, ?_⟩
  · by_cases h : recStatus = "recording"
    · simp [changeTurnEndType, h, recorderStatusAfter]
    · simp [changeTurnEndType, h, recorderStatusAfter]
  · simp [changeTurnEndType]
  · simp [changeTurnEndType, recorderStatusAfter]

/-! ## `disconnectConversation` (`ConsolePage.tsx:261`) -/

/-- A temperature or wind reading shown on the marker. -/
structure Reading where
  value : ℚ
  units : String
deriving DecidableEq, Repr

/-- Map coordinates plus the optional marker payload
(`get_weather` fills `temperature`/`wind_speed`). -/
structure Coordinates where
  lat : ℚ
  lng : ℚ
  location : Option String := none
  temperature : Option Reading := none
  wind_speed : Option Reading := none
deriving DecidableEq, Repr

/-- The default coordinates restored on disconnect
(`{ lat: 37.775593, lng: -122.418137 }`). -/
def defaultCoords : Coordinates :=
  { lat := 37.775593, lng := -122.418137 }

/-- The session-local React state of the console page, together with the
process-wide MemoryStore. -/
structure ConsoleState where
  isConnected : Bool
  realtimeEvents : List LogEntry
  items : List String
  coords : Option Coordinates
  marker : Option Coordinates
  memory : Memory
deriving DecidableEq, Repr

/-- `disconnectConversation`:

```ts
setIsConnected(false);
setRealtimeEvents([]);
setItems([]);
// dispatch(setMemory({}));      <- commented out: memory is kept
setCoords({ lat: 37.775593, lng: -122.418137 });
setMarker(null);
const client = clientRef.current;
if (!client) return;
client.disconnect();
await wavRecorder.end();
await wavStreamPlayer.interrupt();
```
-/
def disconnectConversation (client : Bool) (s : ConsoleState) :
    ConsoleState × List RTAction :=
  let s' := { s with
    isConnected := false
    realtimeEvents := []
    items := []
    coords := some defaultCoords
    marker := none }
  if !client then (s', []) else
    (s', [.clientDisconnect, .recorderEnd, .playerInterrupt])

/-- C7: `disconnect()` clears the event log, the transcript and the
session-local UI state (marker cleared, coords reset to the default),
leaves the MemoryStore bindings exactly as they were, and closes the
transport, ends recording and interrupts playback. -/
theorem disconnectConversation_resets_session_state :
    ∀ s : ConsoleState,
      (disconnectConversation true s).1
        = { isConnected := false
            realtimeEvents := []
            items := []
            coords := some defaultCoords
            marker := none
            memory := s.memory } ∧
      (disconnectConversation true s).1.memory = s.memory ∧
      (disconnectConversation true s).2
        = [.clientDisconnect, .recorderEnd, .playerInterrupt] := by
  intro s
  refine ⟨rfl, rfl, rfl⟩

/-! ## Session configuration push (`ConsolePage.tsx:462`, `conversation_config.ts`)

The setup `useEffect` pushes instructions (embedding a serialized
snapshot of the MemoryStore), the transcription model, the voice and the
temperature via `client.updateSession`.  Its dependency array at
`ConsolePage.tsx:908` is `[]`, so React runs it exactly once per mount;
the memory-mutating tool handlers dispatch to the redux store but do not
re-run the effect. -/

/-- The `instructions` constant of `conversation_config.ts`; the template
literal interpolates `currentTimeFormatted()` at the end, passed here as
`now`. -/
def instructions (now : String) : String :=
  "System settings:\nTool use: enabled.\n\nInstructions:\n" ++
  "- You are a friendly artificial intelligence assistant\n" ++
  "- Please make sure to respond with a helpful voice via audio\n" ++
  "- Be kind, helpful, and curteous\n" ++
  "- It is okay to ask the user questions\n" ++
  "- Use tools and functions you have available liberally\n" ++
  "- Be open to exploration and conversation\n" ++
  "- Sprich deutsch\n" ++
  "- Dein Name ist Luna\n" ++
  "- mein Name ist Alex\n" ++
  "- Wenn du etwas über mich erfährst, dann merke es dir mit deiner \x27set_memory\x27 Funktion.\n" ++
  "- Zuhörermodus: Wenn ich dich bitte, zuzuhören, wechsele ohne weitere Bestätigung in den Zuhörermodus. \n" ++
  "Im Zuhörermodus hörst du einem Gespräch oder einer Geschichte zu.\n" ++
  "Es ist nicht bekannt, ob ich Teilnehmer des Gesprächs oder der Geschichte bin.\n" ++
  "Reagiere im Zuhörermodus nur, wenn ich dich mit deinem Namen direkt anspreche.\n" ++
  "Während du still zuhörst, nutze aktiv und wiederholt die Funktion (Tool) \x27show_info\x27, um mir relevante Informationen zum Gespräch oder zur Geschichte anzuzeigen.\n" ++
  "Bevor du in den Zuhörermodus wechselst, wiederhole diese Regeln (abgesehen von dieser). Bestätige final den Wechsel in den Zuhörermodus.\n" ++
  "- Starte die Konversation mit einer persönlichen Frage oder einer persönlichen Anmerkung.\n" ++
  "\nPersonality:\n- Be upbeat and genuine\n- Try speaking quickly as if excited\n" ++
  "\nCurrent time: " ++ now ++ "\n"

/-- The configured voice (`conversation_config.ts`). -/
def voice : String := "alloy"

/-- The configured temperature (`conversation_config.ts`). -/
def temperature : ℚ := 0.8

/-- `JSON.stringify(memory, null, 2)` on the flat string-to-string
memory object (the keys and values in play need no JSON escaping). -/
def jsonStringifyMem (m : Memory) : String :=
  match m with
  | [] => "\x7b\x7d"
  | _ =>
    "\x7b\n" ++
    String.intercalate ",\n"
      (m.map fun kv => "  \"" ++ kv.1 ++ "\": \"" ++ kv.2 ++ "\"") ++
    "\n\x7d"

/-- The instructions string pushed at setup:
`` `${instructions}\n\nCurrent Memory:\n${JSON.stringify(memory, null, 2)}` ``. -/
def sessionInstructions (now : String) (m : Memory) : String :=
  instructions now ++ "\n\nCurrent Memory:\n" ++ jsonStringifyMem m

/-- The session configuration held by the transport after the
`client.updateSession` calls of the setup effect. -/
structure SessionConfigPush where
  instructions : String
  transcriptionModel : String
  voice : String
  temperature : ℚ
deriving DecidableEq, Repr

/-- Console lifecycle state relevant to configuration pushes. -/
structure SessionModel where
  now : String
  memory : Memory
  pushedConfig : Option SessionConfigPush
  pushCount : Nat
deriving DecidableEq, Repr

/-- The lifecycle events that touch the configuration or the memory:
the setup effect running, and the two memory tools. -/
inductive SessionStep where
  | mountEffect
  | toolSetMemory (key value : String)
  | toolRemoveMemory (key : String)
deriving DecidableEq, Repr

/-- One lifecycle step.  `mountEffect` performs the three
`client.updateSession` calls; the tool steps only dispatch to the redux
store — the setup effect has dependency array `[]` and therefore does
not re-run, so no new configuration reaches the transport. -/
def stepSession (s : SessionModel) : SessionStep → SessionModel
  | .mountEffect =>
    { s with
      pushedConfig := some
        { instructions := sessionInstructions s.now s.memory
          transcriptionModel := "whisper-1"
          voice := voice
          temperature := temperature }
      pushCount := s.pushCount + 1 }
  | .toolSetMemory k v => { s with memory := updateMemory s.memory k v }
  | .toolRemoveMemory k => { s with memory := removeMemory s.memory k }

/-- Running a sequence of lifecycle steps. -/
def runSession (s : SessionModel) (steps : List SessionStep) : SessionModel :=
  steps.foldl stepSession s

/-- The mount time used in the concrete C2 scenario. -/
def mountTime : String := "Monday, January 1, 2024 at 12:00:00 PM"

/-- Memory-only steps leave the pushed configuration and push count
untouched. -/
theorem runSession_no_mount_preserves_push :
    ∀ (steps : List SessionStep) (s : SessionModel),
      (∀ st ∈ steps, st ≠ SessionStep.mountEffect) →
      (runSession s steps).pushedConfig = s.pushedConfig ∧
      (runSession s steps).pushCount = s.pushCount := by
  intro steps
  induction steps with
  | nil => intro s _; exact ⟨rfl, rfl⟩
  | cons st rest ih =>
    intro s h
    have hst : st ≠ SessionStep.mountEffect := h st (List.mem_cons_self st rest)
    have hrest : ∀ x ∈ rest, x ≠ SessionStep.mountEffect :=
      fun x hx => h x (List.mem_cons_of_mem st hx)
    have hstep : (stepSession s st).pushedConfig = s.pushedConfig ∧
        (stepSession s st).pushCount = s.pushCount := by
      cases st with
      | mountEffect => exact absurd rfl hst
      | toolSetMemory k v => exact ⟨rfl, rfl⟩
      | toolRemoveMemory k => exact ⟨rfl, rfl⟩
    have := ih (stepSession s st) hrest
    rw [runSession, List.foldl_cons]
    exact ⟨this.1.trans hstep.1, this.2.trans hstep.2⟩

/-- C2 (amended): the session configuration — instructions embedding the
MemoryStore snapshot, transcription model, voice, temperature — is
pushed exactly once, when the setup effect runs; memory changes via the
tools do not push again (the effect dependency array is empty), so the
transport keeps the instructions rendered from the memory as of the
effect run. -/
theorem session_config_pushed_once :
    ∀ (s : SessionModel) (steps : List SessionStep),
      (∀ st ∈ steps, st ≠ SessionStep.mountEffect) →
      (runSession s (SessionStep.mountEffect :: steps)).pushedConfig = some
        { instructions := sessionInstructions s.now s.memory
          transcriptionModel := "whisper-1"
          voice := voice
          temperature := temperature } ∧
      (runSession s (SessionStep.mountEffect :: steps)).pushCount = s.pushCount + 1 := by
  intro s steps h
  have hsplit : runSession s (SessionStep.mountEffect :: steps)
      = runSession (stepSession s SessionStep.mountEffect) steps := by
    rw [runSession, List.foldl_cons]; rfl
  rw [hsplit]
  have := runSession_no_mount_preserves_push steps (stepSession s SessionStep.mountEffect) h
  exact ⟨this.1, this.2⟩

/-- Witness for C2 (amended): the concrete scenario — mount with empty
memory, then `set_memory("name", "Alex")` — keeps the mount-time
configuration and a push count of one. -/
theorem session_config_pushed_once_witness :
    (runSession ⟨mountTime, [], none, 0⟩
        [SessionStep.mountEffect, SessionStep.toolSetMemory "name" "Alex"]).pushedConfig
      = some
        { instructions := sessionInstructions mountTime []
          transcriptionModel := "whisper-1"
          voice := voice
          temperature := temperature } ∧
    (runSession ⟨mountTime, [], none, 0⟩
        [SessionStep.mountEffect, SessionStep.toolSetMemory "name" "Alex"]).pushCount = 1 :=
  session_config_pushed_once ⟨mountTime, [], none, 0⟩
    [SessionStep.toolSetMemory "name" "Alex"]
    (by intro st hst; rcases List.mem_singleton.mp hst with rfl; simp)

/-- C2 counterexample: after `set_memory("name", "Alex")` the current
memory is `{"name": "Alex"}` but the instructions held by the transport
still embed the empty mount-time snapshot, so they differ from the
instructions rendered from the current memory — the configuration is
not re-pushed on memory change. -/
theorem session_config_stale_after_set_memory :
    (runSession ⟨mountTime, [], none, 0⟩
        [SessionStep.mountEffect, SessionStep.toolSetMemory "name" "Alex"]).memory
      = [("name", "Alex")] ∧
    (runSession ⟨mountTime, [], none, 0⟩
        [SessionStep.mountEffect, SessionStep.toolSetMemory "name" "Alex"]).pushedConfig.map
        SessionConfigPush.instructions
      = some (sessionInstructions mountTime []) ∧
    sessionInstructions mountTime [] ≠ sessionInstructions mountTime [("name", "Alex")] := by
  refine ⟨rfl, rfl, ?_⟩
  intro h
  have hlen := congrArg String.length h
  simp only [sessionInstructions, String.length_append] at hlen
  have hjson : (jsonStringifyMem ([] : Memory)).length
      = (jsonStringifyMem [("name", "Alex")]).length := by omega
  revert hjson
  decide

/-! ## Provider-backed tool handlers (`ConsolePage.tsx:595` onwards)

Network collaborators are `Except`-valued parameters: `.ok v` is the
resolved (and, where the source parses it, JSON-decoded) response,
`.error m` a rejected fetch/decode.  The cheerio + turndown pipeline of
`webpage_scrape` is the collaborator `cleanConvert`. -/

/-- The `{ok: false, message}` failure shape the handlers return. -/
def okFalseMsg (message : String) : JSValue :=
  .obj [("ok", .bool false), ("message", .str message)]

/-- Whether a value has exactly the `{ok: false, message}` shape. -/
def isOkFalseMessage : JSValue → Bool
  | .obj [("ok", .bool false), ("message", .str _)] => true
  | _ => false

/-- A fetch `Response`: `ok` flag, `statusText`, and the text body. -/
structure FetchResp where
  ok : Bool
  statusText : String
  body : String
deriving DecidableEq, Repr

/-- `String.prototype.trim()`: strip whitespace from both ends. -/
def jsTrim (s : String) : String :=
  String.mk (((s.data.dropWhile Char.isWhitespace).reverse.dropWhile Char.isWhitespace).reverse)

/-- Skip to just past the closing `>` of an HTML tag (the regex
`<[^>]*>?` consumes the rest of the string when no `>` follows). -/
def dropTag : List Char → List Char
  | [] => []
  | c :: rest => if c = '>' then rest else dropTag rest

/-- `dropTag` never grows its input. -/
theorem dropTag_length_le : ∀ cs : List Char, (dropTag cs).length ≤ cs.length := by
  intro cs
  induction cs with
  | nil => simp [dropTag]
  | cons c rest ih =>
    rw [dropTag]
    by_cases h : c = '>'
    · simp [h]
    · simp only [h, if_false]
      exact Nat.le_trans ih (Nat.le_succ _)

/-- `snippet.replace(/<[^>]*>?/gm, '')` on the character list. -/
def stripTagsAux (cs : List Char) : List Char :=
  match cs with
  | [] => []
  | c :: rest =>
    if c = '<' then stripTagsAux (dropTag rest)
    else c :: stripTagsAux rest
termination_by cs.length
decreasing_by
  · simp only [List.length_cons]
    exact Nat.lt_succ_of_le (dropTag_length_le rest)
  · simp only [List.length_cons]
    exact Nat.lt_succ_self _

/-- `snippet.replace(/<[^>]*>?/gm, '')`: remove HTML tags. -/
def stripHtmlTags (s : String) : String :=
  String.mk (stripTagsAux s.data)

/-! ### `get_weather` (wrapped in `_onTool`, no failure handling of its own) -/

/-- The `get_weather` handler body: destructures the arguments, awaits
the open-meteo fetch + JSON decode (`weatherFetch`), reads the current
temperature and wind fields (throwing a `TypeError` on a malformed
response), and returns the raw provider JSON.  The `setMarker`/`setCoords`
display side effects do not contribute to the returned value. -/
def getWeatherBody (args : JSValue) (weatherFetch : Except String JSValue) :
    Except String JSValue := do
  let _lat ← getProp args "lat"
  let _lng ← getProp args "lng"
  let _location ← getProp args "location"
  let json ← weatherFetch
  let current ← getProp json "current"
  let _temperatureValue ← getProp current "temperature_2m"
  let current_units ← getProp json "current_units"
  let _temperatureUnits ← getProp current_units "temperature_2m"
  let _windValue ← getProp current "wind_speed_10m"
  let _windUnits ← getProp current_units "wind_speed_10m"
  return json

/-- The `get_weather` tool: the body dispatched through `_onTool`. -/
def get_weather (args : JSValue) (weatherFetch : Except String JSValue) : JSValue :=
  _onTool args (fun a => getWeatherBody a weatherFetch)

/-! ### `generate_image` (wrapped in `_onTool`, no failure handling of its own) -/

/-- The `generate_image` handler body: awaits the OpenAI
`images.generate` call (`imagesGenerate`), reads `response.data[0].url`
(throwing a `TypeError` on a malformed response), and returns the
success payload.  `setDisplayedImage` is a display side effect. -/
def generateImageBody (args : JSValue) (imagesGenerate : Except String JSValue) :
    Except String JSValue := do
  let _prompt ← getProp args "prompt"
  let response ← imagesGenerate
  let data ← getProp response "data"
  let first ← jsIndex data 0
  let image_url ← getProp first "url"
  return .obj [("ok", .bool true), ("displayedToUser", .bool true), ("image_url", image_url)]

/-- The `generate_image` tool: the body dispatched through `_onTool`. -/
def generate_image (args : JSValue) (imagesGenerate : Except String JSValue) : JSValue :=
  _onTool args (fun a => generateImageBody a imagesGenerate)

/-! ### `search_related_topics` (own `try`/`catch` inside `_onTool`) -/

/-- Predicate of `topic.Topics.filter((subTopic) => subTopic.FirstURL && subTopic.Text)`. -/
def relatedFilterPred (subTopic : JSValue) : Except String Bool := do
  let firstURL ← getProp subTopic "FirstURL"
  if truthy firstURL then do
    let text ← getProp subTopic "Text"
    return truthy text
  else
    return false

/-- Mapping of a nested sub-topic to
`{title, url, snippet, icon_url: subTopic.Icon?.URL || null}`. -/
def relatedSubTopic (subTopic : JSValue) : Except String JSValue := do
  let text ← getProp subTopic "Text"
  let firstURL ← getProp subTopic "FirstURL"
  let icon ← getProp subTopic "Icon"
  let iconURL ← getPropOpt icon "URL"
  return .obj [("title", text), ("url", firstURL), ("snippet", text),
    ("icon_url", if truthy iconURL then iconURL else .null)]

/-- The `forEach` body: a topic with nested `Topics` pushes a
category object; a top-level topic with `FirstURL` and `Text` pushes a
plain entry; anything else is skipped. -/
def processTopic (acc : List JSValue) (topic : JSValue) : Except String (List JSValue) := do
  let topics ← getProp topic "Topics"
  if truthy topics then do
    let name ← getProp topic "Name"
    let subs ← asArray topics "filter"
    let filtered ← filterE relatedFilterPred subs
    let mapped ← mapE relatedSubTopic filtered
    return acc ++ [.obj [("category", name), ("topics", .arr mapped)]]
  else do
    let firstURL ← getProp topic "FirstURL"
    if truthy firstURL then do
      let text ← getProp topic "Text"
      if truthy text then do
        let icon ← getProp topic "Icon"
        let iconURL ← getPropOpt icon "URL"
        return acc ++ [.obj [("title", text), ("url", firstURL), ("snippet", text),
          ("icon_url", if truthy iconURL then iconURL else .null)]]
      else return acc
    else return acc

/-- The `try` body of `search_related_topics`: fetch + decode the
DuckDuckGo instant-answer payload (`ddgFetch`), walk
`data.RelatedTopics?.forEach(...)`, and build the result object. -/
def searchRelatedTopicsBody (ddgFetch : Except String JSValue) : Except String JSValue := do
  let data ← ddgFetch
  let relatedTopicsRaw ← getProp data "RelatedTopics"
  let relatedTopics ←
    if nullish relatedTopicsRaw then pure ([] : List JSValue)
    else do
      let topics ← asArray relatedTopicsRaw "forEach"
      topics.foldlM processTopic []
  if relatedTopics.length > 0 then
    return .obj [("ok", .bool true), ("relatedTopics", .arr relatedTopics)]
  else
    return okFalseMsg "No related topics found"

/-- The `try`/`catch` of `search_related_topics`: any thrown error is
mapped to `{ok: false, message: 'Error retrieving related topics'}`. -/
def searchRelatedTopicsCaught (ddgFetch : Except String JSValue) : JSValue :=
  match searchRelatedTopicsBody ddgFetch with
  | .ok v => v
  | .error _ => okFalseMsg "Error retrieving related topics"

/-- The `search_related_topics` tool: argument destructuring happens in
the `_onTool`-wrapped handler, outside the inner `try`. -/
def search_related_topics (args : JSValue) (ddgFetch : Except String JSValue) : JSValue :=
  _onTool args (fun a => do
    let _query ← getProp a "query"
    return searchRelatedTopicsCaught ddgFetch)

/-! ### `wikipedia_search` (own `try`/`catch`, NOT wrapped in `_onTool`) -/

/-- Mapping of one Wikipedia search result: `snippet.replace(...)`
throws a `TypeError` unless the snippet is a string. -/
def wikipediaResult (language : String) (result : JSValue) : Except String JSValue := do
  let title ← getProp result "title"
  let snippet ← getProp result "snippet"
  let snippetText ←
    match snippet with
    | .str s => pure (stripHtmlTags s)
    | _ => Except.error "TypeError: result.snippet.replace is not a function"
  let pageid ← getProp result "pageid"
  return .obj [("title", title), ("snippet", .str snippetText), ("pageid", pageid),
    ("url", .str ("https://" ++ language ++ ".wikipedia.org/?curid=" ++ jsToString pageid))]

/-- The `try` body of `wikipedia_search`:
`data?.query?.search?.map(...)` — the optional chain short-circuits to
`undefined` when any link is nullish. -/
def wikipediaSearchBody (language : String) (wikiFetch : Except String JSValue) :
    Except String JSValue := do
  let data ← wikiFetch
  let query ← getPropOpt data "query"
  let search ← getPropOpt query "search"
  if nullish search then
    pure JSValue.undefined
  else do
    let xs ← asArray search "map"
    let results ← mapE (wikipediaResult language) xs
    pure (.arr results)

/-- The `try`/`catch` plus the final
`searchResults && searchResults.length > 0 ? ... : ...` selection. -/
def wikipediaSearchCaught (language : String) (wikiFetch : Except String JSValue) : JSValue :=
  match wikipediaSearchBody language wikiFetch with
  | .ok searchResults =>
    match searchResults with
    | .arr xs =>
      if xs.length > 0 then .obj [("ok", .bool true), ("searchResults", .arr xs)]
      else okFalseMsg "No search results found"
    | _ => okFalseMsg "No search results found"
  | .error _ => okFalseMsg "Error searching Wikipedia"

/-- The `wikipedia_search` tool: not wrapped in `_onTool`; the argument
destructuring (with `language` defaulting to `"en"`) happens before the
`try`, so the tool itself is a fallible computation. -/
def wikipedia_search (args : JSValue) (wikiFetch : Except String JSValue) :
    Except String JSValue := do
  let _query ← getProp args "query"
  let languageArg ← getProp args "language"
  let language := match languageArg with | .undefined => "en" | v => jsToString v
  return wikipediaSearchCaught language wikiFetch

/-! ### `webpage_scrape` (own `try`/`catch`, NOT wrapped in `_onTool`) -/

/-- The `try` body of `webpage_scrape`: fetch the scrape proxy
(`scrapeFetch`), throw on a non-ok response, short-circuit on an
empty/whitespace-only body, otherwise run the cheerio + turndown
pipeline (`cleanConvert`). -/
def webpageScrapeBody (scrapeFetch : Except String FetchResp)
    (cleanConvert : String → Except String String) : Except String JSValue :=
  match scrapeFetch with
  | .error e => .error e
  | .ok response =>
    if !response.ok then
      .error ("Failed to fetch webpage: " ++ response.statusText)
    else if jsTrim response.body = "" then
      .ok (okFalseMsg "No text content found on the webpage")
    else
      match cleanConvert response.body with
      | .error e => .error e
      | .ok markdownContent =>
        .ok (.obj [("ok", .bool true), ("markdownContent", .str markdownContent)])

/-- The `try`/`catch` of `webpage_scrape`. -/
def webpageScrape (scrapeFetch : Except String FetchResp)
    (cleanConvert : String → Except String String) : JSValue :=
  match webpageScrapeBody scrapeFetch cleanConvert with
  | .ok v => v
  | .error _ => okFalseMsg "Error scraping webpage"

/-- The `webpage_scrape` tool: not wrapped in `_onTool`; argument
destructuring precedes the `try`. -/
def webpage_scrape (args : JSValue) (scrapeFetch : Except String FetchResp)
    (cleanConvert : String → Except String String) : Except String JSValue := do
  let _url ← getProp args "url"
  return webpageScrape scrapeFetch cleanConvert

/-- C8: a successful scrape response whose body is empty or
whitespace-only yields exactly
`{ok: false, message: "No text content found on the webpage"}`; the
result is the same for every `cleanConvert` collaborator, so no HTML
parsing or markdown conversion is attempted. -/
theorem webpage_scrape_empty_body :
    ∀ (url statusText body : String) (cleanConvert : String → Except String String),
      jsTrim body = "" →
      webpage_scrape (.obj [("url", .str url)]) (.ok ⟨true, statusText, body⟩) cleanConvert
        = .ok (okFalseMsg "No text content found on the webpage") := by
  intro url statusText body cleanConvert h
  show Except.ok (webpageScrape (.ok ⟨true, statusText, body⟩) cleanConvert) = _
  unfold webpageScrape webpageScrapeBody
  simp [h]

/-- Witness for C8 at a concrete whitespace-only body and a concrete
conversion collaborator. -/
theorem webpage_scrape_empty_body_witness :
    webpage_scrape (.obj [("url", .str "https://example.com")])
        (.ok ⟨true, "OK", "  \n\t  "⟩) (fun s => .ok s)
      = .ok (okFalseMsg "No text content found on the webpage") :=
  webpage_scrape_empty_body "https://example.com" "OK" "  \n\t  " (fun s => .ok s) (by decide)

/-- C5 (amended): on a provider failure — a rejected fetch/decode, and
for the scrape also a non-ok response — `search_related_topics`,
`wikipedia_search` and `webpage_scrape` return the common
`{ok: false, message}` shape, while `get_weather` and `generate_image`
have no failure mapping of their own: their rejected operation is
caught by the `_onTool` dispatch guard and surfaces as
`{error: message}`.  No handler throws: each embedding is total. -/
theorem provider_failure_shapes :
    ∀ (m statusText : String) (cleanConvert : String → Except String String),
      search_related_topics (.obj [("query", .str "lean")]) (.error m)
        = okFalseMsg "Error retrieving related topics" ∧
      wikipedia_search (.obj [("query", .str "lean")]) (.error m)
        = .ok (okFalseMsg "Error searching Wikipedia") ∧
      webpage_scrape (.obj [("url", .str "https://example.com")]) (.error m) cleanConvert
        = .ok (okFalseMsg "Error scraping webpage") ∧
      webpage_scrape (.obj [("url", .str "https://example.com")])
          (.ok ⟨false, statusText, ""⟩) cleanConvert
        = .ok (okFalseMsg "Error scraping webpage") ∧
      get_weather (.obj [("lat", .num 52), ("lng", .num 13), ("location", .str "Berlin")])
          (.error m)
        = .obj [("error", .str m)] ∧
      generate_image (.obj [("prompt", .str "a cat")]) (.error m)
        = .obj [("error", .str m)] := by
  intro m statusText cleanConvert
  refine ⟨rfl, rfl, rfl, ?_, rfl, rfl⟩
  show Except.ok (webpageScrape (.ok ⟨false, statusText, ""⟩) cleanConvert) = _
  unfold webpageScrape webpageScrapeBody
  simp

/-- C5 counterexample: `get_weather` on a rejected fetch returns
`{error: "network error"}`, which is not of the `{ok: false, message}`
shape the claim requires of every provider-backed handler. -/
theorem get_weather_failure_shape_counterexample :
    get_weather (.obj [("lat", .num 52), ("lng", .num 13), ("location", .str "Berlin")])
        (.error "network error")
      = .obj [("error", .str "network error")] ∧
    isOkFalseMessage
      (get_weather (.obj [("lat", .num 52), ("lng", .num 13), ("location", .str "Berlin")])
        (.error "network error")) = false := by
  exact ⟨rfl, rfl⟩

/-! ## The proxy server endpoints (`proxy-server/proxy.ts`) -/

/-- An HTTP response sent by the proxy server. -/
structure HttpResponse where
  status : Nat
  body : String
deriving DecidableEq, Repr

/-- `GET /proxy`: reject a missing (or empty, hence falsy) `q` with 400
before contacting DuckDuckGo (`ddg`); otherwise pass the provider JSON
through, or 500 on a provider failure.  The boolean records whether the
wrapped provider was contacted. -/
def proxyGet (q : Option String) (ddg : Except String String) : HttpResponse × Bool :=
  match q with
  | none => (⟨400, "Query parameter \"q\" is required"⟩, false)
  | some query =>
    if query = "" then (⟨400, "Query parameter \"q\" is required"⟩, false)
    else
      match ddg with
      | .ok data => (⟨200, data⟩, true)
      | .error _ => (⟨500, "Error fetching data from DuckDuckGo"⟩, true)

/-- `GET /scrape`: reject a missing (or empty) `url` with 400 before
fetching the target page; otherwise return the page body, or 500 when
the fetch rejects or responds non-ok. -/
def scrapeGet (url : Option String) (target : Except String FetchResp) :
    HttpResponse × Bool :=
  match url with
  | none => (⟨400, "Query parameter \"url\" is required"⟩, false)
  | some u =>
    if u = "" then (⟨400, "Query parameter \"url\" is required"⟩, false)
    else
      match target with
      | .ok response =>
        if !response.ok then (⟨500, "Error scraping webpage"⟩, true)
        else (⟨200, response.body⟩, true)
      | .error _ => (⟨500, "Error scraping webpage"⟩, true)

/-- C10: a `GET /proxy` without `q` and a `GET /scrape` without `url`
answer 400 with a text error and never contact the wrapped provider —
whatever the provider would have done. -/
theorem missing_param_rejected_without_contact :
    ∀ (ddg : Except String String) (target : Except String FetchResp),
      proxyGet none ddg = (⟨400, "Query parameter \"q\" is required"⟩, false) ∧
      scrapeGet none target = (⟨400, "Query parameter \"url\" is required"⟩, false) ∧
      (proxyGet none ddg).2 = false ∧
      (scrapeGet none target).2 = false := by
  intro ddg target
  exact ⟨rfl, rfl, rfl, rfl⟩

end RealtimeConsole
